import Mathlib

/-!
Shallow embedding of the complaints-tracker backend (src/schemas.py and
src/main.py) over an explicit document-store state.

The persisted collections `teammember` and `complaint` are modelled as
association lists from string object identifiers to records.  MongoDB's
`datetime` timestamps are modelled as natural numbers; `ObjectId`
conversion is modelled by its documented validity check (a 24-character
hexadecimal string).  The Pydantic schema constructors of src/schemas.py
validate `Literal` fields at construction, so the embedded constructor for
`Complaint` returns an `Option`, rejecting a `status` outside the literal
alternatives.  Handlers return the resulting store state together with an
`Except` value: `Except.error` corresponds to an `HTTPException` (or an
uncaught `bson` conversion error), in which case no write has happened.

The persistence gateway (`database.py`: `db`, `create_document`,
`get_documents`) is imported by src/main.py but its source is not part of
src/; those operations are modelled from the spec where noted.
-/

namespace ComplaintsTracker

/-- The allowed complaint statuses: the `Literal` alternatives of
`Complaint.status` in src/schemas.py line 24, and the `allowed` set in
`update_status` (src/main.py line 144). -/
def allowed : List String :=
  ["pending", "progress", "complete", "critical", "hold", "cancelled"]

/-- A note record as built by `add_note` (src/main.py lines 155-159):
`username` (an optional query parameter), `text`, `timestamp`. -/
structure Note where
  username : Option String
  text : String
  timestamp : Nat
deriving DecidableEq, Repr

/-- A stored complaint document.  Fields `title` .. `notes` are the fields
of the Pydantic `Complaint` model (src/schemas.py lines 18-25).
`updated_at` is not a schema field: it is absent on creation and set by
the two mutation handlers, hence an `Option`. -/
structure Complaint where
  title : String
  description : String
  customer_name : Option String
  customer_contact : Option String
  assigned_to : Option String
  status : String
  notes : List Note
  updated_at : Option Nat
deriving DecidableEq, Repr

/-- A stored team-member document, after the Pydantic `TeamMember` model
(src/schemas.py lines 11-16). -/
structure TeamMember where
  username : String
  password : String
  full_name : Option String
  role : String
  is_active : Bool
deriving DecidableEq, Repr

/-- Pydantic construction of `Complaint` (src/schemas.py lines 18-25):
type validation of the `Literal` field `status` rejects a value outside
the literal alternatives; no other validation is performed.  The defaults
`status="pending"` and `notes=[]` are applied at the call site when the
caller omits these fields. -/
def Complaint.construct (title description : String)
    (customer_name customer_contact assigned_to : Option String)
    (status : String) (notes : List Note) : Option Complaint :=
  if status ∈ allowed then
    some { title := title, description := description,
           customer_name := customer_name, customer_contact := customer_contact,
           assigned_to := assigned_to, status := status, notes := notes,
           updated_at := none }
  else
    none

/-- Pydantic construction of `TeamMember` (src/schemas.py lines 11-16)
with the defaults `role="team"` and `is_active=True` applied, as in
`create_team_member` (src/main.py line 99) which passes neither field. -/
def TeamMember.construct (username password : String)
    (full_name : Option String) : TeamMember :=
  { username := username, password := password, full_name := full_name,
    role := "team", is_active := true }

/-- The document-store state: whether the connection `db` is configured
(src/main.py lines 24-27), and the two collections, as insertion-ordered
association lists from object-identifier strings to documents. -/
structure DBState where
  dbConfigured : Bool
  teammembers : List (String × TeamMember)
  complaints : List (String × Complaint)
deriving DecidableEq, Repr

/-- Errors surfaced by the handlers.  `badRequest`, `notFound`,
`unauthorized` and `serverError` carry the `detail` string of the
corresponding `HTTPException` (status 400, 404, 401, 500); `invalidId` is
the uncaught `bson.errors.InvalidId` raised by `ObjectId(...)` on a
malformed identifier; `validationError` is an uncaught Pydantic
validation error. -/
inductive ApiError where
  | badRequest : String → ApiError
  | notFound : String → ApiError
  | unauthorized : String → ApiError
  | serverError : String → ApiError
  | invalidId : ApiError
  | validationError : ApiError
deriving DecidableEq, Repr

/-- Validity of one character of a hexadecimal `ObjectId` string. -/
def isHexChar (c : Char) : Bool :=
  c.isDigit || (('a' ≤ c) && (c ≤ 'f')) || (('A' ≤ c) && (c ≤ 'F'))

/-- `bson.ObjectId(s)` for a string argument: accepts exactly the
24-character hexadecimal strings, raising `InvalidId` otherwise.  Modelled
as an `Option`; `none` corresponds to the raised error. -/
def objectIdOfString (s : String) : Option String :=
  if s.length == 24 && s.toList.all isHexChar then some s else none

/-- MongoDB `update_one`: apply `f` to the first document matching the
identifier `oid`, leaving every other document unchanged. -/
def updateFirst (l : List (String × Complaint)) (oid : String)
    (f : Complaint → Complaint) : List (String × Complaint) :=
  match l with
  | [] => []
  | p :: rest =>
    if p.1 == oid then (p.1, f p.2) :: rest else p :: updateFirst rest oid f

/-- The first complaint stored under identifier `oid`, if any. -/
def findComplaint (st : DBState) (oid : String) : Option Complaint :=
  (st.complaints.find? (fun p => p.1 == oid)).map (fun p => p.2)

/-- Modelled from the spec: `create_document` of `database.py` (not under
src/), per section 4.2 — serializes the record (defaults applied), inserts
it into the named collection and returns the generated identifier; fails
with `StoreUnavailable` (a 500-equivalent) when no store connection
exists.  Specialized here to the `complaint` collection; the generated
identifier is passed in as `oid`. -/
def create_document_complaint (st : DBState) (oid : String) (c : Complaint) :
    DBState × Except ApiError String :=
  if st.dbConfigured then
    ({ st with complaints := st.complaints ++ [(oid, c)] }, Except.ok oid)
  else
    (st, Except.error (ApiError.serverError "Database not configured"))

/-- Modelled from the spec: `create_document` of `database.py` (not under
src/), per section 4.2, specialized to the `teammember` collection. -/
def create_document_teammember (st : DBState) (oid : String) (m : TeamMember) :
    DBState × Except ApiError String :=
  if st.dbConfigured then
    ({ st with teammembers := st.teammembers ++ [(oid, m)] }, Except.ok oid)
  else
    (st, Except.error (ApiError.serverError "Database not configured"))

/-- Modelled from the spec: `get_documents` of `database.py` (not under
src/), per section 4.2 — returns all records matching the filter in
storage order; the empty filter returns the whole collection; fails with
`StoreUnavailable` when no store connection exists.  Specialized to the
`complaint` collection with an optional equality filter on
`assigned_to`. -/
def get_documents_complaint (st : DBState) (filterAssigned : Option String) :
    Except ApiError (List (String × Complaint)) :=
  if st.dbConfigured then
    match filterAssigned with
    | none => Except.ok st.complaints
    | some s => Except.ok (st.complaints.filter (fun p => p.2.assigned_to == some s))
  else
    Except.error (ApiError.serverError "Database not configured")

/-- Handler `team_login` (src/main.py lines 85-91): find one stored team
member whose `username`, `password` and `is_active=True` all match the
filter; succeed with role `"team"` and the stored username, otherwise
fail 401 `"Invalid credentials"`. -/
def team_login (st : DBState) (username password : String) :
    Except ApiError (String × String) :=
  if st.dbConfigured then
    match st.teammembers.find?
        (fun p => p.2.username == username && p.2.password == password && p.2.is_active) with
    | some p => Except.ok ("team", p.2.username)
    | none => Except.error (ApiError.unauthorized "Invalid credentials")
  else
    Except.error (ApiError.serverError "Database not configured")

/-- Handler `create_team_member` (src/main.py lines 94-101): reject 400
when a stored team member already has the requested username, otherwise
construct the member with schema defaults and insert it.  `newId` stands
for the store-generated identifier. -/
def create_team_member (st : DBState) (username password : String)
    (full_name : Option String) (newId : String) :
    DBState × Except ApiError String :=
  if st.dbConfigured then
    if st.teammembers.any (fun p => p.2.username == username) then
      (st, Except.error (ApiError.badRequest "Username already exists"))
    else
      create_document_teammember st newId (TeamMember.construct username password full_name)
  else
    (st, Except.error (ApiError.serverError "Database not configured"))

/-- Handler `create_complaint` (src/main.py lines 111-121): construct the
complaint from the request fields — `status` and `notes` are not request
fields, so the schema defaults `"pending"` and `[]` are supplied — and
insert it.  `newId` stands for the store-generated identifier. -/
def create_complaint (st : DBState) (title description : String)
    (customer_name customer_contact assigned_to : Option String)
    (newId : String) : DBState × Except ApiError String :=
  match Complaint.construct title description customer_name customer_contact
      assigned_to "pending" [] with
  | some comp => create_document_complaint st newId comp
  | none => (st, Except.error ApiError.validationError)

/-- Handler `list_complaints` (src/main.py lines 123-129): the query
filters on `assigned_to` only when the parameter is truthy in Python —
`None` and the empty string are falsy, so both yield the empty filter. -/
def list_complaints (st : DBState) (assigned_to : Option String) :
    Except ApiError (List (String × Complaint)) :=
  match assigned_to with
  | some s =>
    if s == "" then get_documents_complaint st none
    else get_documents_complaint st (some s)
  | none => get_documents_complaint st none

/-- Handler `update_status` (src/main.py lines 142-151), in source order:
reject 400 when the status is outside `allowed`; resolve the collection
(500 when the store is unconfigured); convert the identifier (`InvalidId`
when malformed); `update_one` setting `status` and `updated_at` in one
write; reject 404 when no document matched. -/
def update_status (st : DBState) (complaint_id status : String) (now : Nat) :
    DBState × Except ApiError Unit :=
  if status ∈ allowed then
    if st.dbConfigured then
      match objectIdOfString complaint_id with
      | some oid =>
        if st.complaints.any (fun p => p.1 == oid) then
          let f : Complaint → Complaint :=
            fun c => { c with status := status, updated_at := some now }
          ({ st with complaints := updateFirst st.complaints oid f }, Except.ok ())
        else
          (st, Except.error (ApiError.notFound "Complaint not found"))
      | none => (st, Except.error ApiError.invalidId)
    else
      (st, Except.error (ApiError.serverError "Database not configured"))
  else
    (st, Except.error (ApiError.badRequest "Invalid status"))

/-- Handler `add_note` (src/main.py lines 153-164), in source order: build
the note record; resolve the collection (500 when the store is
unconfigured); convert the identifier (`InvalidId` when malformed);
`update_one` pushing the note onto `notes` and setting `updated_at` in
the same single write; reject 404 when no document matched.  `now`
models the wall-clock instant of the request. -/
def add_note (st : DBState) (complaint_id text : String)
    (username : Option String) (now : Nat) : DBState × Except ApiError Unit :=
  let note : Note := { username := username, text := text, timestamp := now }
  if st.dbConfigured then
    match objectIdOfString complaint_id with
    | some oid =>
      if st.complaints.any (fun p => p.1 == oid) then
        let f : Complaint → Complaint :=
          fun c => { c with notes := c.notes ++ [note], updated_at := some now }
        ({ st with complaints := updateFirst st.complaints oid f }, Except.ok ())
      else
        (st, Except.error (ApiError.notFound "Complaint not found"))
    | none => (st, Except.error ApiError.invalidId)
  else
    (st, Except.error (ApiError.serverError "Database not configured"))

/-- The status invariant on a store state: every stored complaint's
`status` is in the fixed allowed set. -/
def StateInv (st : DBState) : Prop :=
  ∀ p ∈ st.complaints, p.2.status ∈ allowed

/-! ## Helper lemmas -/

/-- Every element of `updateFirst l oid f` is an element of `l` or the
image under `f` (on the value) of an element of `l`. -/
theorem mem_updateFirst {l : List (String × Complaint)} {oid : String}
    {f : Complaint → Complaint} {q : String × Complaint}
    (hq : q ∈ updateFirst l oid f) :
    q ∈ l ∨ ∃ p ∈ l, q = (p.1, f p.2) := by
  induction l with
  | nil => simp [updateFirst] at hq
  | cons p rest ih =>
    simp only [updateFirst] at hq
    by_cases hp : (p.1 == oid) = true
    · rw [if_pos hp] at hq
      rcases List.mem_cons.mp hq with h1 | h2
      · exact Or.inr ⟨p, List.mem_cons_self p rest, h1⟩
      · exact Or.inl (List.mem_cons_of_mem p h2)
    · rw [if_neg hp] at hq
      rcases List.mem_cons.mp hq with h1 | h2
      · exact Or.inl (h1 ▸ List.mem_cons_self p rest)
      · rcases ih h2 with h3 | ⟨r, hr, hr2⟩
        · exact Or.inl (List.mem_cons_of_mem p h3)
        · exact Or.inr ⟨r, List.mem_cons_of_mem p hr, hr2⟩

/-- Searching for the key after `updateFirst` on the same key finds the
updated first match. -/
theorem find?_updateFirst (l : List (String × Complaint)) (oid : String)
    (f : Complaint → Complaint) :
    (updateFirst l oid f).find? (fun p => p.1 == oid)
      = (l.find? (fun p => p.1 == oid)).map (fun p => (p.1, f p.2)) := by
  induction l with
  | nil => simp [updateFirst]
  | cons p rest ih =>
    by_cases hp : (p.1 == oid) = true
    · simp [updateFirst, hp, List.find?_cons]
    · have hp' : (p.1 == oid) = false := by simpa using hp
      simp [updateFirst, hp', List.find?_cons, ih]

/-- A key matches some entry exactly when `find?` on that key succeeds. -/
theorem any_key_iff_find?_isSome (l : List (String × Complaint)) (oid : String) :
    l.any (fun p => p.1 == oid) = true
      ↔ (l.find? (fun p => p.1 == oid)).isSome := by
  induction l with
  | nil => simp
  | cons p rest ih =>
    by_cases hp : (p.1 == oid) = true
    · simp [hp, List.find?_cons]
    · have hp' : (p.1 == oid) = false := by simpa using hp
      simp [hp', List.find?_cons, ih]

/-- Constructing a `Complaint` with the schema defaults succeeds and
yields the default-populated record. -/
theorem construct_pending_eq (t d : String) (cn cc a : Option String) :
    Complaint.construct t d cn cc a "pending" []
      = some { title := t, description := d, customer_name := cn,
               customer_contact := cc, assigned_to := a, status := "pending",
               notes := [], updated_at := none } := by
  simp [Complaint.construct, allowed]

/-! ## Claims -/

/-- C2: a status-update request whose status value is outside the fixed
allowed set is rejected with the 400 "Invalid status" error before any
write is attempted (even before the store-connection check), and the
store state — in particular the stored status of the targeted
complaint — is unchanged. -/
theorem invalid_status_rejected_before_write (st : DBState)
    (cid s : String) (now : Nat) (h : s ∉ allowed) :
    update_status st cid s now
      = (st, Except.error (ApiError.badRequest "Invalid status")) := by
  simp [update_status, h]

/-- Witness for C2 at a concrete input. -/
theorem invalid_status_rejected_before_write_witness :
    "bogus" ∉ allowed ∧
      update_status ⟨true, [], []⟩ "aaaaaaaaaaaaaaaaaaaaaaaa" "bogus" 0
        = (⟨true, [], []⟩, Except.error (ApiError.badRequest "Invalid status")) :=
  ⟨by decide,
   invalid_status_rejected_before_write ⟨true, [], []⟩
     "aaaaaaaaaaaaaaaaaaaaaaaa" "bogus" 0 (by decide)⟩

/-- C8 counterexample: the Pydantic `Complaint` constructor does perform
an enum-membership check on `status` — its `Literal` type rejects the
value `"bogus"` at construction — refuting the claim that construction
succeeds for any supplied status value. -/
theorem construct_rejects_bogus_status :
    Complaint.construct "t" "d" none none none "bogus" [] = none := by
  decide

/-- C8 amended: at construction the `status` field is validated exactly
against the fixed enumeration (the validation is the `Literal` type
check itself): construction succeeds precisely when the supplied status
is in the allowed set, and no field value other than `status` affects
whether construction succeeds. -/
theorem construct_status_membership (t d : String) (cn cc a : Option String)
    (s : String) (ns : List Note) :
    (Complaint.construct t d cn cc a s ns).isSome ↔ s ∈ allowed := by
  by_cases h : s ∈ allowed <;> simp [Complaint.construct, h]

/-- C9: at the admin list endpoint, an empty-string `assigned_to` filter
is falsy in Python, so the query is the empty filter and the whole
complaint collection is returned — the same result as supplying no
filter at all. -/
theorem empty_assigned_filter_lists_all (st : DBState)
    (hdb : st.dbConfigured = true) :
    list_complaints st (some "") = Except.ok st.complaints
      ∧ list_complaints st none = Except.ok st.complaints := by
  constructor <;> simp [list_complaints, get_documents_complaint, hdb]

/-- Witness for C9 at a concrete input. -/
theorem empty_assigned_filter_lists_all_witness :
    (⟨true, [], [("aaaaaaaaaaaaaaaaaaaaaaaa",
        ⟨"t", "d", none, none, some "", "pending", [], none⟩)]⟩ : DBState).dbConfigured = true
    ∧ list_complaints ⟨true, [], [("aaaaaaaaaaaaaaaaaaaaaaaa",
        ⟨"t", "d", none, none, some "", "pending", [], none⟩)]⟩ (some "")
        = Except.ok [("aaaaaaaaaaaaaaaaaaaaaaaa",
            ⟨"t", "d", none, none, some "", "pending", [], none⟩)]
    ∧ list_complaints ⟨true, [], [("aaaaaaaaaaaaaaaaaaaaaaaa",
        ⟨"t", "d", none, none, some "", "pending", [], none⟩)]⟩ none
        = Except.ok [("aaaaaaaaaaaaaaaaaaaaaaaa",
            ⟨"t", "d", none, none, some "", "pending", [], none⟩)] :=
  ⟨rfl,
   (empty_assigned_filter_lists_all _ rfl).1,
   (empty_assigned_filter_lists_all _ rfl).2⟩

/-- C10: when the complaint identifier is not a well-formed object
identifier, the `ObjectId` conversion raises before the collection is
queried: both mutation handlers surface the conversion error (once the
earlier guards — store configured, and for status updates the allowed
check — pass), the store state is unchanged, and neither handler
produces the 404 not-found rejection. -/
theorem malformed_id_conversion_error (st : DBState) (cid s text : String)
    (user : Option String) (now : Nat)
    (hbad : objectIdOfString cid = none) :
    (st.dbConfigured = true →
        add_note st cid text user now = (st, Except.error ApiError.invalidId))
    ∧ (st.dbConfigured = true → s ∈ allowed →
        update_status st cid s now = (st, Except.error ApiError.invalidId))
    ∧ (update_status st cid s now).1 = st
    ∧ (add_note st cid text user now).1 = st
    ∧ (∀ d, (update_status st cid s now).2 ≠ Except.error (ApiError.notFound d))
    ∧ (∀ d, (add_note st cid text user now).2 ≠ Except.error (ApiError.notFound d)) := by
  refine ⟨?_, ?_, ?_, ?_, ?_, ?_⟩
  · intro hdb; simp [add_note, hdb, hbad]
  · intro hdb hs; simp [update_status, hdb, hbad, hs]
  · by_cases hs : s ∈ allowed <;> by_cases hdb : st.dbConfigured <;>
      simp [update_status, hs, hdb, hbad]
  · by_cases hdb : st.dbConfigured <;> simp [add_note, hdb, hbad]
  · intro d
    by_cases hs : s ∈ allowed <;> by_cases hdb : st.dbConfigured <;>
      simp [update_status, hs, hdb, hbad]
  · intro d
    by_cases hdb : st.dbConfigured <;> simp [add_note, hdb, hbad]

/-- Witness for C10 at a concrete input. -/
theorem malformed_id_conversion_error_witness :
    objectIdOfString "zz" = none
    ∧ (⟨true, [], []⟩ : DBState).dbConfigured = true
    ∧ "pending" ∈ allowed
    ∧ add_note ⟨true, [], []⟩ "zz" "note" none 0
        = (⟨true, [], []⟩, Except.error ApiError.invalidId)
    ∧ update_status ⟨true, [], []⟩ "zz" "pending" 0
        = (⟨true, [], []⟩, Except.error ApiError.invalidId) :=
  ⟨by decide, rfl, by decide,
   (malformed_id_conversion_error ⟨true, [], []⟩ "zz" "pending" "note" none 0
      (by decide)).1 rfl,
   ((malformed_id_conversion_error ⟨true, [], []⟩ "zz" "pending" "note" none 0
      (by decide)).2).1 rfl (by decide)⟩

/-- `updateFirst` preserves the per-complaint status property when the
update function does. -/
theorem updateFirst_preserves_status (l : List (String × Complaint))
    (oid : String) (f : Complaint → Complaint)
    (hl : ∀ p ∈ l, p.2.status ∈ allowed)
    (hf : ∀ c, c.status ∈ allowed → (f c).status ∈ allowed) :
    ∀ p ∈ updateFirst l oid f, p.2.status ∈ allowed := by
  intro q hq
  rcases mem_updateFirst hq with h1 | ⟨p, hp, hq2⟩
  · exact hl q h1
  · subst hq2
    exact hf p.2 (hl p hp)

/-- C1: every operation in scope preserves the status invariant — from a
store state in which every complaint's status is in the fixed allowed
set, complaint creation, status update and note append each lead to a
state in which every complaint's status is still in that set. -/
theorem status_invariant_preserved (st : DBState) (h : StateInv st)
    (t d : String) (cn cc a : Option String) (nid cid s : String)
    (now : Nat) (text : String) (user : Option String) :
    StateInv (create_complaint st t d cn cc a nid).1
    ∧ StateInv (update_status st cid s now).1
    ∧ StateInv (add_note st cid text user now).1 := by
  refine ⟨?_, ?_, ?_⟩
  · intro p hp
    by_cases hdb : st.dbConfigured = true
    · simp only [create_complaint, construct_pending_eq,
        create_document_complaint, if_pos hdb] at hp
      rcases List.mem_append.mp hp with h1 | h2
      · exact h p h1
      · rw [List.mem_singleton] at h2
        subst h2
        show "pending" ∈ allowed
        decide
    · simp only [create_complaint, construct_pending_eq,
        create_document_complaint, if_neg hdb] at hp
      exact h p hp
  · by_cases hs : s ∈ allowed
    · by_cases hdb : st.dbConfigured = true
      · cases hoid : objectIdOfString cid with
        | none => simp only [update_status, if_pos hs, if_pos hdb, hoid]; exact h
        | some oid =>
          by_cases hany : st.complaints.any (fun p => p.1 == oid) = true
          · simp only [update_status, if_pos hs, if_pos hdb, hoid, if_pos hany]
            exact updateFirst_preserves_status st.complaints oid _ h
              (fun c _ => hs)
          · simp only [update_status, if_pos hs, if_pos hdb, hoid, if_neg hany]
            exact h
      · simp only [update_status, if_pos hs, if_neg hdb]; exact h
    · simp only [update_status, if_neg hs]; exact h
  · by_cases hdb : st.dbConfigured = true
    · cases hoid : objectIdOfString cid with
      | none => simp only [add_note, if_pos hdb, hoid]; exact h
      | some oid =>
        by_cases hany : st.complaints.any (fun p => p.1 == oid) = true
        · simp only [add_note, if_pos hdb, hoid, if_pos hany]
          exact updateFirst_preserves_status st.complaints oid _ h
            (fun c hc => hc)
        · simp only [add_note, if_pos hdb, hoid, if_neg hany]
          exact h
    · simp only [add_note, if_pos hdb, if_neg hdb]; exact h

/-- Witness for C1 at a concrete input. -/
theorem status_invariant_preserved_witness :
    StateInv ⟨true, [], []⟩
    ∧ (StateInv (create_complaint ⟨true, [], []⟩ "t" "d" none none none "id1").1
       ∧ StateInv (update_status ⟨true, [], []⟩ "aaaaaaaaaaaaaaaaaaaaaaaa" "progress" 1).1
       ∧ StateInv (add_note ⟨true, [], []⟩ "aaaaaaaaaaaaaaaaaaaaaaaa" "note" none 1).1) :=
  ⟨fun p hp => absurd hp (List.not_mem_nil p),
   status_invariant_preserved ⟨true, [], []⟩
     (fun p hp => absurd hp (List.not_mem_nil p))
     "t" "d" none none none "id1" "aaaaaaaaaaaaaaaaaaaaaaaa" "progress"
     1 "note" none⟩

/-- C3: after a successful team-member creation, a second creation
request with the same username is rejected with the 400 "Username
already exists" error, and the store state — in particular the
originally stored record with its password — is unchanged by the
rejected attempt. -/
theorem duplicate_username_rejected (st st1 : DBState) (u pw1 : String)
    (fn1 : Option String) (id1 r1 : String)
    (h1 : create_team_member st u pw1 fn1 id1 = (st1, Except.ok r1))
    (pw2 : String) (fn2 : Option String) (id2 : String) :
    create_team_member st1 u pw2 fn2 id2
      = (st1, Except.error (ApiError.badRequest "Username already exists")) := by
  by_cases hdb : st.dbConfigured = true
  · by_cases hdup : st.teammembers.any (fun p => p.2.username == u) = true
    · simp [create_team_member, hdb, hdup] at h1
    · simp only [create_team_member, if_pos hdb, if_neg hdup,
        create_document_teammember] at h1
      have hst1 : st1 = { st with teammembers :=
          st.teammembers ++ [(id1, TeamMember.construct u pw1 fn1)] } :=
        (congrArg Prod.fst h1).symm
      subst hst1
      simp [create_team_member, hdb, List.any_append, TeamMember.construct]
  · simp [create_team_member, hdb] at h1

/-- Witness for C3 at a concrete input. -/
theorem duplicate_username_rejected_witness :
    create_team_member ⟨true, [], []⟩ "alice" "pw1" none "id1"
      = (⟨true, [("id1", ⟨"alice", "pw1", none, "team", true⟩)], []⟩,
         Except.ok "id1")
    ∧ create_team_member
        ⟨true, [("id1", ⟨"alice", "pw1", none, "team", true⟩)], []⟩
        "alice" "pw2" none "id2"
      = (⟨true, [("id1", ⟨"alice", "pw1", none, "team", true⟩)], []⟩,
         Except.error (ApiError.badRequest "Username already exists")) :=
  ⟨rfl,
   duplicate_username_rejected ⟨true, [], []⟩
     ⟨true, [("id1", ⟨"alice", "pw1", none, "team", true⟩)], []⟩
     "alice" "pw1" none "id1" "id1" rfl "pw2" none "id2"⟩

/-- C4: complaint creation — whose request model has no status or notes
fields — stores a record with status `"pending"` and an empty notes
sequence, and every successfully created team member is stored with the
schema defaults `role="team"` and `is_active=true`. -/
theorem creation_defaults (st : DBState) (hdb : st.dbConfigured = true)
    (t d : String) (cn cc a : Option String) (nid : String) :
    (create_complaint st t d cn cc a nid).1.complaints
      = st.complaints ++
          [(nid, { title := t, description := d, customer_name := cn,
                   customer_contact := cc, assigned_to := a,
                   status := "pending", notes := [], updated_at := none })]
    ∧ (∀ st2 : DBState, ∀ u pw : String, ∀ fn : Option String,
        ∀ nid2 : String, ∀ st' : DBState, ∀ r : String,
        create_team_member st2 u pw fn nid2 = (st', Except.ok r) →
          st'.teammembers = st2.teammembers ++
            [(nid2, { username := u, password := pw, full_name := fn,
                      role := "team", is_active := true })]) := by
  constructor
  · simp [create_complaint, construct_pending_eq, create_document_complaint, hdb]
  · intro st2 u pw fn nid2 st' r h2
    by_cases hdb2 : st2.dbConfigured = true
    · by_cases hdup : st2.teammembers.any (fun p => p.2.username == u) = true
      · simp [create_team_member, hdb2, hdup] at h2
      · simp only [create_team_member, if_pos hdb2, if_neg hdup,
          create_document_teammember] at h2
        have hst : st' = { st2 with teammembers :=
            st2.teammembers ++ [(nid2, TeamMember.construct u pw fn)] } :=
          (congrArg Prod.fst h2).symm
        subst hst
        simp [TeamMember.construct]
    · simp [create_team_member, hdb2] at h2

/-- Witness for C4 at a concrete input. -/
theorem creation_defaults_witness :
    (⟨true, [], []⟩ : DBState).dbConfigured = true
    ∧ (create_complaint ⟨true, [], []⟩ "t" "d" none none none "id1").1.complaints
        = [("id1", ⟨"t", "d", none, none, none, "pending", [], none⟩)]
    ∧ create_team_member ⟨true, [], []⟩ "alice" "pw" none "id2"
        = (⟨true, [("id2", ⟨"alice", "pw", none, "team", true⟩)], []⟩,
           Except.ok "id2")
    ∧ (⟨true, [("id2", ⟨"alice", "pw", none, "team", true⟩)], []⟩ : DBState).teammembers
        = [("id2", ⟨"alice", "pw", none, "team", true⟩)] :=
  ⟨rfl,
   (creation_defaults ⟨true, [], []⟩ rfl "t" "d" none none none "id1").1,
   rfl,
   (creation_defaults ⟨true, [], []⟩ rfl "t" "d" none none none "id1").2
     ⟨true, [], []⟩ "alice" "pw" none "id2"
     ⟨true, [("id2", ⟨"alice", "pw", none, "team", true⟩)], []⟩ "id2" rfl⟩

/-- C5: a successful note append on an existing complaint appends the new
note (username, text, timestamp) as the last element of the complaint's
notes sequence and sets `updated_at` to the instant of the request — both
changes in the same single-document write (one record update) — and,
assuming the wall clock has advanced past every stored `updated_at`,
`updated_at` strictly increases. -/
theorem note_append_correct (st : DBState) (cid text : String)
    (user : Option String) (now : Nat) (st' : DBState)
    (hclock : ∀ p ∈ st.complaints, ∀ t, p.2.updated_at = some t → t < now)
    (hok : add_note st cid text user now = (st', Except.ok ())) :
    ∃ oid c,
      objectIdOfString cid = some oid
      ∧ findComplaint st oid = some c
      ∧ findComplaint st' oid
          = some { c with
              notes := c.notes ++
                [{ username := user, text := text, timestamp := now }],
              updated_at := some now }
      ∧ (∀ t, c.updated_at = some t → t < now) := by
  by_cases hdb : st.dbConfigured = true
  · cases hoid : objectIdOfString cid with
    | none => simp [add_note, hdb, hoid] at hok
    | some oid =>
      by_cases hany : st.complaints.any (fun p => p.1 == oid) = true
      · simp only [add_note, if_pos hdb, hoid, if_pos hany] at hok
        have hst := (congrArg Prod.fst hok).symm
        obtain ⟨p, hfind⟩ := Option.isSome_iff_exists.mp
          ((any_key_iff_find?_isSome st.complaints oid).mp hany)
        refine ⟨oid, p.2, rfl, ?_, ?_,
          fun t ht => hclock p (List.mem_of_find?_eq_some hfind) t ht⟩
        · simp [findComplaint, hfind]
        · subst hst
          simp [findComplaint, find?_updateFirst, hfind]
      · simp [add_note, hdb, hoid, hany] at hok
  · simp [add_note, hdb] at hok

/-- Witness for C5 at a concrete input. -/
theorem note_append_correct_witness :
    (∀ p ∈ (⟨true, [], [("aaaaaaaaaaaaaaaaaaaaaaaa",
        ⟨"t", "d", none, none, none, "pending", [], none⟩)]⟩ : DBState).complaints,
       ∀ t, p.2.updated_at = some t → t < 7)
    ∧ (∃ oid c,
        objectIdOfString "aaaaaaaaaaaaaaaaaaaaaaaa" = some oid
        ∧ findComplaint ⟨true, [], [("aaaaaaaaaaaaaaaaaaaaaaaa",
            ⟨"t", "d", none, none, none, "pending", [], none⟩)]⟩ oid = some c
        ∧ findComplaint ⟨true, [], [("aaaaaaaaaaaaaaaaaaaaaaaa",
            ⟨"t", "d", none, none, none, "pending",
             [⟨some "alice", "hello", 7⟩], some 7⟩)]⟩ oid
            = some { c with
                notes := c.notes ++
                  [{ username := some "alice", text := "hello", timestamp := 7 }],
                updated_at := some 7 }
        ∧ (∀ t, c.updated_at = some t → t < 7)) :=
  have hcl : ∀ p ∈ (⟨true, [], [("aaaaaaaaaaaaaaaaaaaaaaaa",
      ⟨"t", "d", none, none, none, "pending", [], none⟩)]⟩ : DBState).complaints,
      ∀ t, p.2.updated_at = some t → t < 7 := by
    intro p hp t ht
    rw [List.mem_singleton] at hp
    subst hp
    exact Option.noConfusion ht
  ⟨hcl, note_append_correct
    ⟨true, [], [("aaaaaaaaaaaaaaaaaaaaaaaa",
      ⟨"t", "d", none, none, none, "pending", [], none⟩)]⟩
    "aaaaaaaaaaaaaaaaaaaaaaaa" "hello" (some "alice") 7
    ⟨true, [], [("aaaaaaaaaaaaaaaaaaaaaaaa",
      ⟨"t", "d", none, none, none, "pending",
       [⟨some "alice", "hello", 7⟩], some 7⟩)]⟩
    hcl rfl⟩

/-- C6 counterexample: a status-update request with the disallowed status
`"bogus"` that targets a well-formed identifier absent from the complaint
collection is rejected with the 400 "Invalid status" error, not with the
404 not-found rejection — refuting the claim that every such mutating
operation fails with NotFound. -/
theorem absent_id_invalid_status_not_notFound :
    objectIdOfString "aaaaaaaaaaaaaaaaaaaaaaaa" = some "aaaaaaaaaaaaaaaaaaaaaaaa"
    ∧ findComplaint ⟨true, [], []⟩ "aaaaaaaaaaaaaaaaaaaaaaaa" = none
    ∧ update_status ⟨true, [], []⟩ "aaaaaaaaaaaaaaaaaaaaaaaa" "bogus" 0
        = (⟨true, [], []⟩, Except.error (ApiError.badRequest "Invalid status")) :=
  ⟨rfl, rfl, rfl⟩

/-- C6 amended: a note append, or a status update whose status is in the
allowed set, targeting a well-formed identifier absent from the complaint
collection fails with the 404 "Complaint not found" rejection and leaves
the store state unchanged; a status update with a disallowed status is
instead rejected with the 400 "Invalid status" error, also with no
change. -/
theorem absent_id_notFound (st : DBState) (cid oid s text : String)
    (user : Option String) (now : Nat)
    (hdb : st.dbConfigured = true)
    (hid : objectIdOfString cid = some oid)
    (habs : findComplaint st oid = none)
    (hs : s ∈ allowed) :
    update_status st cid s now
        = (st, Except.error (ApiError.notFound "Complaint not found"))
    ∧ add_note st cid text user now
        = (st, Except.error (ApiError.notFound "Complaint not found")) := by
  have hfind : st.complaints.find? (fun p => p.1 == oid) = none := by
    cases hf : st.complaints.find? (fun p => p.1 == oid) with
    | none => rfl
    | some p => simp [findComplaint, hf] at habs
  have hany : st.complaints.any (fun p => p.1 == oid) = false := by
    cases ha : st.complaints.any (fun p => p.1 == oid) with
    | false => rfl
    | true =>
      have := (any_key_iff_find?_isSome st.complaints oid).mp ha
      rw [hfind] at this
      simp at this
  constructor
  · simp [update_status, hs, hdb, hid, hany]
  · simp [add_note, hdb, hid, hany]

/-- Witness for the amended C6 at a concrete input. -/
theorem absent_id_notFound_witness :
    (⟨true, [], []⟩ : DBState).dbConfigured = true
    ∧ objectIdOfString "aaaaaaaaaaaaaaaaaaaaaaaa" = some "aaaaaaaaaaaaaaaaaaaaaaaa"
    ∧ findComplaint ⟨true, [], []⟩ "aaaaaaaaaaaaaaaaaaaaaaaa" = none
    ∧ "pending" ∈ allowed
    ∧ update_status ⟨true, [], []⟩ "aaaaaaaaaaaaaaaaaaaaaaaa" "pending" 0
        = (⟨true, [], []⟩, Except.error (ApiError.notFound "Complaint not found"))
    ∧ add_note ⟨true, [], []⟩ "aaaaaaaaaaaaaaaaaaaaaaaa" "note" none 0
        = (⟨true, [], []⟩, Except.error (ApiError.notFound "Complaint not found")) :=
  ⟨rfl, rfl, rfl, by decide,
   (absent_id_notFound ⟨true, [], []⟩ "aaaaaaaaaaaaaaaaaaaaaaaa"
      "aaaaaaaaaaaaaaaaaaaaaaaa" "pending" "note" none 0 rfl rfl rfl (by decide)).1,
   (absent_id_notFound ⟨true, [], []⟩ "aaaaaaaaaaaaaaaaaaaaaaaa"
      "aaaaaaaaaaaaaaaaaaaaaaaa" "pending" "note" none 0 rfl rfl rfl (by decide)).2⟩

/-- C7: a team login succeeds (with role `"team"` and the requested
username) exactly when some stored team member matches the supplied
username and password and has `is_active=true`; in particular, when every
stored record matching the username/password pair has `is_active=false`,
the login is rejected with the 401 "Invalid credentials" error. -/
theorem login_requires_active_match (st : DBState) (u pw : String)
    (hdb : st.dbConfigured = true) :
    (team_login st u pw = Except.ok ("team", u)
      ↔ ∃ p ∈ st.teammembers,
          p.2.username = u ∧ p.2.password = pw ∧ p.2.is_active = true)
    ∧ ((∀ p ∈ st.teammembers,
          p.2.username = u → p.2.password = pw → p.2.is_active = false) →
        team_login st u pw
          = Except.error (ApiError.unauthorized "Invalid credentials")) := by
  have hpred : ∀ p : String × TeamMember,
      (p.2.username == u && p.2.password == pw && p.2.is_active) = true
        ↔ (p.2.username = u ∧ p.2.password = pw ∧ p.2.is_active = true) := by
    intro p
    simp [Bool.and_eq_true, beq_iff_eq, and_assoc]
  constructor
  · constructor
    · intro hok
      cases hfind : st.teammembers.find?
          (fun p => p.2.username == u && p.2.password == pw && p.2.is_active) with
      | none => simp [team_login, hdb, hfind] at hok
      | some p =>
        have hp := List.find?_some hfind
        rw [hpred p] at hp
        exact ⟨p, List.mem_of_find?_eq_some hfind, hp⟩
    · rintro ⟨p, hmem, hprop⟩
      cases hfind : st.teammembers.find?
          (fun p => p.2.username == u && p.2.password == pw && p.2.is_active) with
      | none =>
        rw [List.find?_eq_none] at hfind
        exact absurd ((hpred p).mpr hprop) (hfind p hmem)
      | some q =>
        have hq := List.find?_some hfind
        rw [hpred q] at hq
        simp [team_login, hdb, hfind, hq.1]
  · intro hall
    have hfind : st.teammembers.find?
        (fun p => p.2.username == u && p.2.password == pw && p.2.is_active)
          = none := by
      rw [List.find?_eq_none]
      intro p hmem hp
      rw [hpred p] at hp
      have := hall p hmem hp.1 hp.2.1
      rw [hp.2.2] at this
      exact Bool.noConfusion this
    simp [team_login, hdb, hfind]

/-- Witness for C7 at a concrete input: a stored record whose username
and password match but which is inactive. -/
theorem login_requires_active_match_witness :
    (⟨true, [("id1", ⟨"alice", "pw1", none, "team", false⟩)], []⟩ : DBState).dbConfigured = true
    ∧ ((team_login ⟨true, [("id1", ⟨"alice", "pw1", none, "team", false⟩)], []⟩
          "alice" "pw1" = Except.ok ("team", "alice")
        ↔ ∃ p ∈ [("id1", (⟨"alice", "pw1", none, "team", false⟩ : TeamMember))],
            p.2.username = "alice" ∧ p.2.password = "pw1" ∧ p.2.is_active = true)
       ∧ ((∀ p ∈ [("id1", (⟨"alice", "pw1", none, "team", false⟩ : TeamMember))],
             p.2.username = "alice" → p.2.password = "pw1" → p.2.is_active = false) →
           team_login ⟨true, [("id1", ⟨"alice", "pw1", none, "team", false⟩)], []⟩
             "alice" "pw1"
             = Except.error (ApiError.unauthorized "Invalid credentials"))) :=
  ⟨rfl,
   login_requires_active_match
     ⟨true, [("id1", ⟨"alice", "pw1", none, "team", false⟩)], []⟩
     "alice" "pw1" rfl⟩

end ComplaintsTracker
